import Mathlib

/-!
Shallow embedding of the mongoz install-and-launch orchestrator
(src/index.ts) together with proofs of its specified properties.

The orchestrator resolves configuration from options, environment and a
static formula, plans a deterministic path layout, acquires and extracts
the platform artifact when missing, prepares a log file and spawns the
target executable, returning a handle with a close operation.

JavaScript string primitives used by the code (String.prototype.replace
with a string pattern, String.prototype.split with a one-character
separator, startsWith) are modelled structurally over lists of
characters so that every definition evaluates by kernel reduction.
-/

namespace Mongoz

/-- Expansion of the JS dollar replacement patterns, which apply to the
replacement string even when the search pattern is a plain string: a
doubled dollar inserts a dollar, dollar-ampersand inserts the matched
substring, dollar-backtick the portion of the subject before the match,
dollar-apostrophe the portion after it; every other dollar stays
literal, in particular dollar-digit, since a plain-string pattern has
no capture groups. The backtick and apostrophe characters are written
by code point. -/
def expandDollar (matched before after : List Char) : List Char → List Char
  | [] => []
  | c :: rest =>
    if c == '$' then
      match rest with
      | [] => [c]
      | d :: rest2 =>
        if d == '$' then '$' :: expandDollar matched before after rest2
        else if d == '&' then matched ++ expandDollar matched before after rest2
        else if d == Char.ofNat 96 then before ++ expandDollar matched before after rest2
        else if d == Char.ofNat 39 then after ++ expandDollar matched before after rest2
        else c :: d :: expandDollar matched before after rest2
    else c :: expandDollar matched before after rest

/-- Scanner for the first occurrence of pat: seen holds the characters
already scanned, in reverse. On a match the result is the scanned part,
then the dollar-expanded replacement, then the rest of the subject; a
plain-string pattern matches literally, so the matched substring is pat
itself. An empty pattern matches at the start. -/
def replaceFirstAux (pat rep : List Char) (seen : List Char) : List Char → List Char
  | [] =>
    if pat == [] then seen.reverse ++ expandDollar pat seen.reverse [] rep
    else seen.reverse
  | c :: cs =>
    if pat.isPrefixOf (c :: cs) then
      seen.reverse ++
        expandDollar pat seen.reverse ((c :: cs).drop pat.length) rep ++
        (c :: cs).drop pat.length
    else replaceFirstAux pat rep (c :: seen) cs

/-- Replace the first occurrence of pat in the character list, as JS
String.prototype.replace with a string pattern does: later occurrences
are untouched and the replacement undergoes dollar expansion. -/
def replaceFirstL (pat rep s : List Char) : List Char :=
  replaceFirstAux pat rep [] s

/-- Split a character list on a one-character separator, as JS
String.prototype.split with that separator: adjacent separators yield
empty pieces and the empty list yields one empty piece. -/
def splitOnCharL (sep : Char) : List Char → List (List Char)
  | [] => [[]]
  | c :: cs =>
    let r := splitOnCharL sep cs
    if c == sep then [] :: r
    else
      match r with
      | [] => [[c]]
      | h :: t => (c :: h) :: t

/-- JS String.prototype.replace with a string pattern, on strings. -/
def jsReplaceFirst (s pat rep : String) : String :=
  ⟨replaceFirstL pat.data rep.data s.data⟩

/-- JS String.prototype.split with a one-character separator. -/
def jsSplit (s : String) (sep : Char) : List String :=
  (splitOnCharL sep s.data).map (fun l => ⟨l⟩)

/-- Does the string start with the path separator? (path.isAbsolute on
posix, and the only case String.prototype.startsWith is needed for.) -/
def startsWithSlash (s : String) : Bool :=
  match s.data with
  | [] => false
  | c :: _ => c == '/'

/-- One step of Node path.resolve: an absolute segment restarts
resolution, any other segment is appended after a separator. -/
def resolve1 (acc seg : String) : String :=
  if startsWithSlash seg then seg else acc ++ "/" ++ seg

/-- Node path.resolve of a base directory followed by further segments.
Dot-segment normalization is not modelled; the segments the orchestrator
passes contain none. -/
def pathResolve (base : String) (segs : List String) : String :=
  segs.foldl resolve1 base

/-- Node path.extname: the extension of the basename starting at its
last dot; a basename whose only dot is a leading one (hidden file) and a
basename without a dot have the empty extension. -/
def extname (p : String) : String :=
  let base : List Char := (splitOnCharL '/' p.data).getLastD []
  match splitOnCharL '.' base with
  | [] => ""
  | [_] => ""
  | first :: rest =>
    if first == [] && rest.length == 1 then ""
    else ⟨'.' :: rest.getLastD []⟩

/-- One platform entry of the formula: platform identifier and artifact
download location (its extension implies the archive format). -/
structure PlatformSpec where
  name : String
  source : String
deriving DecidableEq, Repr

/-- The formula: static description of the service to bootstrap. The
concrete formula module is data imported by the orchestrator and not
part of its logic, so the formula is a parameter of the embedding; the
fields are exactly those src/index.ts reads. -/
structure Formula where
  name : String
  version : String
  exec : String
  execArgs : String
  port : Nat
  platforms : List PlatformSpec
deriving DecidableEq, Repr

/-- A JavaScript port value: the port option accepts string or number. -/
inductive PortVal where
  | str (s : String)
  | num (n : Nat)
deriving DecidableEq, Repr

/-- JS string coercion of a possibly undefined port value, as in the
expression opts.port + two quotes: undefined stringifies to the word
undefined. -/
def portStr : Option PortVal → String
  | none => "undefined"
  | some (.str s) => s
  | some (.num n) => toString n

/-- Call-time options (interface MongoOptions). Each field records
JavaScript object-key status: none means the key is absent, some none
means the key is present with value undefined, some (some v) means the
key holds v. Object spread copies a present key even when its value is
undefined, so the two first cases behave differently. -/
structure MongoOptions where
  name : Option (Option String) := none
  platform : Option (Option String) := none
  dir : Option (Option String) := none
  port : Option (Option PortVal) := none
  args : Option (Option (List String)) := none
deriving Repr

/-- Environment snapshot of the variables the orchestrator reads; none
means the variable is unset. -/
structure Env where
  MONGO_NAME : Option String := none
  MONGO_PORT : Option String := none
  MONGO_PLATFORM : Option String := none
  MONGO_DIR : Option String := none
  PORT : Option String := none
deriving Repr

/-- Host process facts: process.platform and os.tmpdir(). -/
structure Host where
  platform : String
  tmpdir : String
deriving Repr

/-- JS a || b for an environment string: an unset variable and the empty
string are falsy and fall through to the default. -/
def envOr (a : Option String) (b : String) : String :=
  match a with
  | some s => if s = "" then b else s
  | none => b

/-- JS a || b where the fallback is a port value. -/
def envOrPort (a : Option String) (b : PortVal) : PortVal :=
  match a with
  | some s => if s = "" then b else .str s
  | none => b

/-- One key of the object spread (lines 27-33): a key present in the
caller options overrides the default even when its value is undefined;
an absent key keeps the default. -/
def spreadKey (o : Option (Option α)) (dflt : α) : Option α :=
  match o with
  | none => some dflt
  | some v => v

/-- The options object after the defaults spread; a none field is an
explicitly undefined value. -/
structure ResolvedOpts where
  name : Option String
  platform : Option String
  dir : Option String
  port : Option PortVal
  args : Option (List String)
deriving Repr

/-- Configuration resolution (lines 27-33): defaults from environment,
formula and host, overridden by the spread of the caller options. The
args key has no default. -/
def resolveOpts (opts : MongoOptions) (env : Env) (host : Host) (f : Formula) :
    ResolvedOpts :=
  { name := spreadKey opts.name (envOr env.MONGO_NAME "default")
    port := spreadKey opts.port
      (envOrPort env.MONGO_PORT (envOrPort env.PORT (.num f.port)))
    platform := spreadKey opts.platform (envOr env.MONGO_PLATFORM host.platform)
    dir := spreadKey opts.dir (envOr env.MONGO_DIR (pathResolve host.tmpdir ["mongo"]))
    args :=
      match opts.args with
      | none => none
      | some v => v }

/-- Platform lookup (line 36): formula.platforms.find with strict
equality of the entry name against the selected platform; strict
equality with undefined never holds. -/
def findPlatform (f : Formula) (sel : Option String) : Option PlatformSpec :=
  f.platforms.find? (fun p => sel == some p.name)

/-- The planned filesystem layout. -/
structure ResolvedPaths where
  dataDir : String
  logsDir : String
  logFile : String
  sourceDir : String
  sourceFileName : String
  sourceFile : String
  extractDir : String
  execFile : String
deriving DecidableEq, Repr

/-- Path planning (lines 42-49). -/
def resolvePaths (dir nm : String) (f : Formula) (plat : PlatformSpec) :
    ResolvedPaths :=
  let dataDir := pathResolve dir ["data", nm, f.name]
  let logsDir := pathResolve dir ["logs", nm, f.name]
  let logFile := pathResolve logsDir ["logs.txt"]
  let sourceDir := pathResolve dir ["source", f.name, f.version, plat.name]
  let sourceFileName := f.name ++ "-" ++ f.version ++ "-" ++ plat.name ++ extname plat.source
  let sourceFile := pathResolve sourceDir [sourceFileName]
  let extractDir := pathResolve sourceDir ["unpacked"]
  let execFile := pathResolve extractDir [f.exec]
  { dataDir, logsDir, logFile, sourceDir, sourceFileName, sourceFile, extractDir, execFile }

/-- Argument construction (lines 82-85): substitute the first occurrence
of the port placeholder with the stringified port, then the first
occurrence of the data placeholder with the data directory, split on
single spaces, and append the caller arguments when they are an array. -/
def buildArgs (tmpl portS dataDir : String) (extra : Option (List String)) :
    List String :=
  let parts := jsSplit (jsReplaceFirst (jsReplaceFirst tmpl "{port}" portS) "{data}" dataDir) ' '
  match extra with
  | some l => parts ++ l
  | none => parts

/-- Filesystem abstraction: which paths currently exist. -/
structure FS where
  present : String → Bool

/-- A path comes into existence. -/
def FS.addPath (fs : FS) (p : String) : FS :=
  ⟨fun q => q == p || fs.present q⟩

/-- A path is removed. -/
def FS.removePath (fs : FS) (p : String) : FS :=
  ⟨fun q => if q == p then false else fs.present q⟩

/-- The filesystem with no paths. -/
def emptyFS : FS := ⟨fun _ => false⟩

/-- Observable side effects of one run. Spinner and console output is
cosmetic and not tracked. -/
inductive Effect where
  | mkdirp (dir : String)
  | networkFetch (url : String) (destDir : String) (destFile : String)
  | decompressArchive (src : String) (dest : String) (strip : Nat)
  | removeFile (p : String)
  | openFile (p : String)
  | closeFile (p : String)
  | spawn (exe : String) (args : List String)
  | cancelProcess
deriving DecidableEq, Repr

/-- Does the effect touch the network? -/
def Effect.isNetwork : Effect → Bool
  | .networkFetch _ _ _ => true
  | _ => false

/-- Does the effect create, modify or delete filesystem entries or file
handles? A network fetch streams its result to a file, so it counts. -/
def Effect.touchesFs : Effect → Bool
  | .mkdirp _ => true
  | .networkFetch _ _ _ => true
  | .decompressArchive _ _ _ => true
  | .removeFile _ => true
  | .openFile _ => true
  | .closeFile _ => true
  | _ => false

/-- Is the effect a decompression? -/
def Effect.isDecompress : Effect → Bool
  | .decompressArchive _ _ _ => true
  | _ => false

/-- Failure kinds of the run. -/
inductive MongoError where
  | unsupportedPlatform (selected : Option String) (formulaName : String)
  | acquisitionError
  | typeError
deriving DecidableEq, Repr

/-- Artifact acquisition (lines 59-67): a cache hit when sourceFile
exists, otherwise a network fetch. Modelled from the spec: the download
transport is a dependency outside src, and per the spec contract the
artifact is written only once the transfer fully completes, so a failed
transfer leaves the filesystem unchanged. The netOk flag says whether
the network transfer succeeds. -/
def acquireStep (fs : FS) (netOk : Bool) (url sourceDir sourceFile : String) :
    Except MongoError Unit × FS × List Effect :=
  if fs.present sourceFile then (.ok (), fs, [])
  else if netOk then
    (.ok (), fs.addPath sourceFile, [.networkFetch url sourceDir sourceFile])
  else
    (.error .acquisitionError, fs, [.networkFetch url sourceDir sourceFile])

/-- Archive extraction (line 69): decompress sourceFile into extractDir
stripping one leading directory level; afterwards extractDir and the
target executable exist. -/
def extractStep (fs : FS) (sourceFile extractDir execFile : String) :
    FS × List Effect :=
  ((fs.addPath extractDir).addPath execFile,
    [.decompressArchive sourceFile extractDir 1])

/-- The install block (lines 58-71): skipped when both extractDir and
the executable already exist, otherwise acquire then extract. -/
def installStep (fs : FS) (netOk : Bool) (url : String) (paths : ResolvedPaths) :
    Except MongoError Unit × FS × List Effect :=
  if !(fs.present paths.extractDir) || !(fs.present paths.execFile) then
    match acquireStep fs netOk url paths.sourceDir paths.sourceFile with
    | (.ok _, fs2, eff) =>
      let r := extractStep fs2 paths.sourceFile paths.extractDir paths.execFile
      (.ok (), r.1, eff ++ r.2)
    | (.error e, fs2, eff) => (.error e, fs2, eff)
  else (.ok (), fs, [])

/-- Result of one orchestrator run: outcome (on success the planned
paths and the spawn argument list), the effect trace, and the final
filesystem. -/
structure RunResult where
  outcome : Except MongoError (ResolvedPaths × List String)
  effects : List Effect
  fs : FS

/-- The whole orchestrator (startMongo, lines 25-102) as a function of
the inputs and a world (initial filesystem, network health). Resolving
a path from an undefined dir or name raises a TypeError in Node before
any effect; the platform check comes before that and before all
effects. -/
def startMongo (opts : MongoOptions) (env : Env) (host : Host) (f : Formula)
    (fs0 : FS) (netOk : Bool) : RunResult :=
  let o := resolveOpts opts env host f
  match findPlatform f o.platform with
  | none =>
    { outcome := .error (.unsupportedPlatform o.platform f.name)
      effects := [], fs := fs0 }
  | some plat =>
    match o.dir, o.name with
    | some dir, some nm =>
      let paths := resolvePaths dir nm f plat
      let fs1 := fs0.addPath paths.dataDir
      match installStep fs1 netOk plat.source paths with
      | (.error e, fs2, eff) =>
        { outcome := .error e
          effects := Effect.mkdirp paths.dataDir :: eff, fs := fs2 }
      | (.ok _, fs2, eff) =>
        let fs3 := ((fs2.addPath paths.logsDir).removePath paths.logFile).addPath paths.logFile
        let args := buildArgs f.execArgs (portStr o.port) paths.dataDir o.args
        { outcome := .ok (paths, args)
          effects := Effect.mkdirp paths.dataDir :: eff ++
            [.mkdirp paths.logsDir, .removeFile paths.logFile, .openFile paths.logFile,
             .spawn paths.execFile args]
          fs := fs3 }
    | _, _ => { outcome := .error .typeError, effects := [], fs := fs0 }

/-- Child process state. Termination by signal is asynchronous, so a
kill request does not by itself change aliveness. -/
structure ProcState where
  alive : Bool
deriving DecidableEq, Repr

/-- Node ChildProcess kill: delivers a termination signal when the
process still runs and returns whether it did; it never throws. -/
def jsKill (ps : ProcState) : ProcState × Bool :=
  (ps, ps.alive)

/-- The execa cancel operation: calls kill unguarded on every call. -/
def execaCancel (ps : ProcState) : ProcState × Nat :=
  let r := jsKill ps
  (r.1, if r.2 then 1 else 0)

/-- State visible to a service handle: the filesystem, whether the log
file handle is open, and the child process. -/
structure HandleState where
  fs : FS
  logOpen : Bool
  proc : ProcState

/-- The close operation (line 94), () => Promise.resolve(server.cancel()):
returns the new state, the effect trace, the number of termination
requests issued, and whether the returned promise resolves. -/
def close (st : HandleState) : HandleState × List Effect × Nat × Bool :=
  let r := execaCancel st.proc
  ({ st with proc := r.1 }, [Effect.cancelProcess], r.2, true)

/-- Two successive close calls on the same handle: the final state, the
total number of termination requests, and the two promise results. -/
def closeTwice (st : HandleState) : HandleState × Nat × Bool × Bool :=
  let r1 := close st
  let r2 := close r1.1
  (r2.1, r1.2.2.1 + r2.2.2.1, r1.2.2.2, r2.2.2.2)

/-- Concrete fixtures used by witnesses. -/
def testPlat : PlatformSpec :=
  { name := "linux", source := "https://example.com/archive/mongodb-linux.tgz" }

def testFormula : Formula :=
  { name := "mongodb", version := "4.0.9", exec := "bin/mongod"
    execArgs := "--port {port} --dbpath {data}", port := 27017
    platforms := [testPlat] }

def testHost : Host := { platform := "linux", tmpdir := "/tmp" }

def emptyEnv : Env := {}

/-- Adding a path preserves every path that was already present. -/
theorem FS.present_addPath_of (fs : FS) (p q : String) (h : fs.present q = true) :
    (fs.addPath p).present q = true := by
  simp [FS.addPath, h]

/-- When the source archive is already present, the install block
succeeds and its effect trace contains no network effect. -/
theorem installStep_present_ok (fs : FS) (netOk : Bool) (url : String)
    (paths : ResolvedPaths) (h : fs.present paths.sourceFile = true) :
    (installStep fs netOk url paths).1 = .ok () ∧
    ((installStep fs netOk url paths).2.2.all (fun e => !e.isNetwork)) = true := by
  unfold installStep
  split
  · simp [acquireStep, h, extractStep, Effect.isNetwork]
  · simp

/-- Claim C1: when the selected platform name (explicit option, or
MONGO_PLATFORM, or the host platform default) has no matching entry in
formula.platforms, the run fails with the unsupported-platform error
before any I/O: the effect trace is empty (no directory created, no
file touched, no network call) and the filesystem is unchanged. -/
theorem startMongo_unsupported_platform_no_effects
    (opts : MongoOptions) (env : Env) (host : Host) (f : Formula)
    (fs0 : FS) (netOk : Bool)
    (h : findPlatform f (resolveOpts opts env host f).platform = none) :
    (startMongo opts env host f fs0 netOk).outcome =
        .error (.unsupportedPlatform (resolveOpts opts env host f).platform f.name) ∧
    (startMongo opts env host f fs0 netOk).effects = [] ∧
    ∀ p, (startMongo opts env host f fs0 netOk).fs.present p = fs0.present p := by
  simp [startMongo, h]

/-- Claim C1 witness: a concrete run selecting an unsupported platform
rejects with the unsupported-platform error and performs no effects. -/
theorem startMongo_unsupported_platform_no_effects_witness :
    findPlatform testFormula
      (resolveOpts { platform := some (some "unsupported-os") }
        emptyEnv testHost testFormula).platform = none ∧
    (startMongo { platform := some (some "unsupported-os") }
      emptyEnv testHost testFormula emptyFS true).effects = [] :=
  ⟨by decide,
   (startMongo_unsupported_platform_no_effects
     { platform := some (some "unsupported-os") }
     emptyEnv testHost testFormula emptyFS true (by decide)).2.1⟩

/-- Claim C2 counterexample: three explicit inputs where the built list
differs from the one the claim describes. First, a template where the
port placeholder occurs twice: only the first occurrence is
substituted, not every occurrence. Second, a template whose words are
separated by a tab: the code splits on single space characters only,
not on whitespace, so the tab-joined words stay one element. Third, a
data directory containing the JS dollar-ampersand replacement pattern:
replace expands it to the matched placeholder rather than inserting the
caller string literally. -/
theorem buildArgs_subst_first_only :
    (buildArgs "{port} {port}" "1" "/x" none = ["1", "{port}"] ∧
      buildArgs "{port} {port}" "1" "/x" none ≠ ["1", "1"]) ∧
    (buildArgs "{port}\t{data}" "1" "/x" none = ["1\t/x"] ∧
      buildArgs "{port}\t{data}" "1" "/x" none ≠ ["1", "/x"]) ∧
    (buildArgs "--dbpath {data}" "1" "/x/$&" none = ["--dbpath", "/x/{data}"] ∧
      buildArgs "--dbpath {data}" "1" "/x/$&" none ≠ ["--dbpath", "/x/$&"]) := by
  decide

/-- Claim C2 amended: the spawn argument list is the template with the
first occurrence of the port placeholder replaced by the stringified
port, then the first occurrence of the data placeholder replaced by the
data directory, each replacement undergoing the JS dollar expansion,
split on single space characters, followed by the caller-supplied extra
arguments in the order given. On the concrete example of the claim,
whose placeholders occur once and whose replacements are dollar-free,
the list is exactly the one the claim states and the caller argument is
the final element; the last two conjuncts pin the dollar expansion: a
dollar-ampersand in the data directory inserts the matched placeholder
and a doubled dollar inserts one dollar. -/
theorem buildArgs_amended (tmpl portS dataDir : String) (extra : List String) :
    buildArgs tmpl portS dataDir (some extra) =
      buildArgs tmpl portS dataDir none ++ extra ∧
    buildArgs "--port {port} --dbpath {data}" "27111" "/x/data" (some ["--quiet"]) =
      ["--port", "27111", "--dbpath", "/x/data", "--quiet"] ∧
    buildArgs "--dbpath {data}" "1" "pre$&post" none = ["--dbpath", "pre{data}post"] ∧
    buildArgs "--dbpath {data}" "1" "/x/$$d" none = ["--dbpath", "/x/$d"] :=
  ⟨rfl, by decide, by decide, by decide⟩

/-- Claim C3: whenever the source archive already exists at the planned
path, the whole run performs zero network calls: every effect in the
trace is a non-network effect. -/
theorem startMongo_cache_hit_no_network
    (opts : MongoOptions) (env : Env) (host : Host) (f : Formula)
    (fs0 : FS) (netOk : Bool) (plat : PlatformSpec) (d nm : String)
    (hplat : findPlatform f (resolveOpts opts env host f).platform = some plat)
    (hdir : (resolveOpts opts env host f).dir = some d)
    (hname : (resolveOpts opts env host f).name = some nm)
    (hsrc : fs0.present (resolvePaths d nm f plat).sourceFile = true) :
    ((startMongo opts env host f fs0 netOk).effects.all (fun e => !e.isNetwork)) = true := by
  have hI := installStep_present_ok (fs0.addPath (resolvePaths d nm f plat).dataDir)
    netOk plat.source (resolvePaths d nm f plat)
    (FS.present_addPath_of _ _ _ hsrc)
  simp only [startMongo, hplat, hdir, hname]
  rcases hE : installStep (fs0.addPath (resolvePaths d nm f plat).dataDir)
      netOk plat.source (resolvePaths d nm f plat) with ⟨exc, fs2, eff⟩
  rw [hE] at hI
  cases exc with
  | error e => simp at hI
  | ok u =>
    simp only at hI
    simp [List.all_append, Effect.isNetwork]
    intro x hx
    have hx2 := List.all_eq_true.mp hI.2 x hx
    cases x <;> simp_all [Effect.isNetwork]

/-- Claim C3 witness: a concrete run whose planned source archive is
already on disk performs zero network calls. -/
theorem startMongo_cache_hit_no_network_witness :
    ((startMongo
        { platform := some (some "linux"), dir := some (some "/base"),
          name := some (some "t1") }
        emptyEnv testHost testFormula
        (emptyFS.addPath ((resolvePaths "/base" "t1" testFormula testPlat).sourceFile))
        true).effects.all (fun e => !e.isNetwork)) = true :=
  startMongo_cache_hit_no_network
    { platform := some (some "linux"), dir := some (some "/base"),
      name := some (some "t1") }
    emptyEnv testHost testFormula
    (emptyFS.addPath ((resolvePaths "/base" "t1" testFormula testPlat).sourceFile))
    true testPlat "/base" "t1" (by decide) (by decide) (by decide) (by decide)

/-- Claim C4: assuming acquisition can succeed, the install block emits
a decompression if and only if not both the extraction directory and
the executable already exist; and when the cached archive is present, a
re-extraction happens without any network call, because the archive and
executable checks are independent. -/
theorem installStep_extract_iff (fs : FS) (netOk : Bool) (url : String)
    (paths : ResolvedPaths) :
    (netOk = true →
      (Effect.decompressArchive paths.sourceFile paths.extractDir 1 ∈
          (installStep fs netOk url paths).2.2 ↔
        ¬(fs.present paths.extractDir = true ∧ fs.present paths.execFile = true))) ∧
    (fs.present paths.sourceFile = true →
      ((installStep fs netOk url paths).2.2.all (fun e => !e.isNetwork)) = true) := by
  constructor
  · rintro rfl
    cases hE : fs.present paths.extractDir <;>
      cases hX : fs.present paths.execFile <;>
        cases hS : fs.present paths.sourceFile <;>
          simp [installStep, acquireStep, extractStep, hE, hX, hS, Effect.isDecompress]
  · intro h
    exact (installStep_present_ok fs netOk url paths h).2

/-- Claim C4 witness: with the archive cached but the extraction
directory missing, the install block decompresses and makes no network
call. -/
theorem installStep_extract_iff_witness :
    (Effect.decompressArchive
        (resolvePaths "/base" "t1" testFormula testPlat).sourceFile
        (resolvePaths "/base" "t1" testFormula testPlat).extractDir 1 ∈
      (installStep
        (emptyFS.addPath ((resolvePaths "/base" "t1" testFormula testPlat).sourceFile))
        true testPlat.source (resolvePaths "/base" "t1" testFormula testPlat)).2.2) ∧
    (((installStep
        (emptyFS.addPath ((resolvePaths "/base" "t1" testFormula testPlat).sourceFile))
        true testPlat.source (resolvePaths "/base" "t1" testFormula testPlat)).2.2.all
      (fun e => !e.isNetwork)) = true) :=
  ⟨((installStep_extract_iff
      (emptyFS.addPath ((resolvePaths "/base" "t1" testFormula testPlat).sourceFile))
      true testPlat.source (resolvePaths "/base" "t1" testFormula testPlat)).1 rfl).mpr
      (by decide),
   (installStep_extract_iff
      (emptyFS.addPath ((resolvePaths "/base" "t1" testFormula testPlat).sourceFile))
      true testPlat.source (resolvePaths "/base" "t1" testFormula testPlat)).2 (by decide)⟩

/-- Claim C5: when the source archive is absent and the network
transfer fails, acquisition fails with the acquisition error and leaves
no file at sourceFile, so a subsequent acquisition does not see a cache
hit: it issues a network fetch again whatever the network health. -/
theorem acquire_failure_no_leftover (fs : FS) (url sdir sfile : String)
    (h : fs.present sfile = false) :
    (acquireStep fs false url sdir sfile).1 = .error .acquisitionError ∧
    (acquireStep fs false url sdir sfile).2.1.present sfile = false ∧
    ∀ netOk2 : Bool,
      ((acquireStep (acquireStep fs false url sdir sfile).2.1 netOk2 url sdir sfile).2.2.any
        Effect.isNetwork) = true := by
  refine ⟨?_, ?_, ?_⟩
  · simp [acquireStep, h]
  · simp [acquireStep, h]
  · intro netOk2
    cases netOk2 <;> simp [acquireStep, h, Effect.isNetwork]

/-- Claim C5 witness: on an empty filesystem a failed transfer yields
the acquisition error, leaves the archive absent, and the next
acquisition attempts the network again. -/
theorem acquire_failure_no_leftover_witness :
    (acquireStep emptyFS false "u" "/s" "/s/f.tgz").1 = .error .acquisitionError ∧
    (acquireStep emptyFS false "u" "/s" "/s/f.tgz").2.1.present "/s/f.tgz" = false ∧
    ((acquireStep (acquireStep emptyFS false "u" "/s" "/s/f.tgz").2.1 true
        "u" "/s" "/s/f.tgz").2.2.any Effect.isNetwork) = true :=
  ⟨(acquire_failure_no_leftover emptyFS "u" "/s" "/s/f.tgz" (by decide)).1,
   (acquire_failure_no_leftover emptyFS "u" "/s" "/s/f.tgz" (by decide)).2.1,
   (acquire_failure_no_leftover emptyFS "u" "/s" "/s/f.tgz" (by decide)).2.2 true⟩

/-- A handle whose child process is still running. -/
def liveHandle : HandleState :=
  { fs := emptyFS, logOpen := true, proc := { alive := true } }

/-- Claim C6 counterexample: on a handle whose process is still running,
two close calls both resolve successfully but issue two termination
requests, because every call invokes cancel, and cancel calls kill
unguarded; so the at-most-one-request part of the claim fails. -/
theorem closeTwice_two_requests :
    (closeTwice liveHandle).2.2.1 = true ∧
    (closeTwice liveHandle).2.2.2 = true ∧
    (closeTwice liveHandle).2.1 = 2 ∧ ¬((closeTwice liveHandle).2.1 ≤ 1) := by
  decide

/-- Claim C6 amended: both close calls resolve successfully; each call
issues one termination request while the process is still running and
none once it has exited, so two calls issue two requests on a running
process and zero on an already exited one; in particular close is safe
to call after the process exited on its own. -/
theorem closeTwice_amended (st : HandleState) :
    (closeTwice st).2.2.1 = true ∧ (closeTwice st).2.2.2 = true ∧
    (closeTwice st).2.1 = (if st.proc.alive then 2 else 0) := by
  rcases st with ⟨fs, lo, ⟨a⟩⟩
  cases a <;> simp [closeTwice, close, execaCancel, jsKill]

/-- Claim C7: path planning is a pure function of the base directory,
the instance name, the formula name and version and the platform name,
deterministic across repeated calls, and each path matches the declared
layout; in particular the source archive path is the source directory
joined with name-version-platform and the extension of the platform
source URL. The hypotheses say the components are path components, not
absolute paths. -/
theorem resolvePaths_layout (d nm : String) (f : Formula) (plat : PlatformSpec)
    (hn : startsWithSlash nm = false)
    (hf : startsWithSlash f.name = false)
    (hv : startsWithSlash f.version = false)
    (hp : startsWithSlash plat.name = false)
    (he : startsWithSlash f.exec = false)
    (hsf : startsWithSlash
      (f.name ++ "-" ++ f.version ++ "-" ++ plat.name ++ extname plat.source) = false) :
    resolvePaths d nm f plat = resolvePaths d nm f plat ∧
    (resolvePaths d nm f plat).dataDir = d ++ "/" ++ "data" ++ "/" ++ nm ++ "/" ++ f.name ∧
    (resolvePaths d nm f plat).logsDir = d ++ "/" ++ "logs" ++ "/" ++ nm ++ "/" ++ f.name ∧
    (resolvePaths d nm f plat).logFile =
      (resolvePaths d nm f plat).logsDir ++ "/" ++ "logs.txt" ∧
    (resolvePaths d nm f plat).sourceDir =
      d ++ "/" ++ "source" ++ "/" ++ f.name ++ "/" ++ f.version ++ "/" ++ plat.name ∧
    (resolvePaths d nm f plat).sourceFile =
      (resolvePaths d nm f plat).sourceDir ++ "/" ++
        (f.name ++ "-" ++ f.version ++ "-" ++ plat.name ++ extname plat.source) ∧
    (resolvePaths d nm f plat).extractDir =
      (resolvePaths d nm f plat).sourceDir ++ "/" ++ "unpacked" ∧
    (resolvePaths d nm f plat).execFile =
      (resolvePaths d nm f plat).extractDir ++ "/" ++ f.exec := by
  have l1 : startsWithSlash "data" = false := by decide
  have l2 : startsWithSlash "logs" = false := by decide
  have l3 : startsWithSlash "source" = false := by decide
  have l4 : startsWithSlash "unpacked" = false := by decide
  have l5 : startsWithSlash "logs.txt" = false := by decide
  refine ⟨rfl, ?_, ?_, ?_, ?_, ?_, ?_, ?_⟩ <;>
    simp [resolvePaths, pathResolve, resolve1, hn, hf, hv, hp, he, hsf,
      l1, l2, l3, l4, l5]

/-- Claim C7 witness: the concrete layout of the source archive path. -/
theorem resolvePaths_layout_witness :
    startsWithSlash "t1" = false ∧
    (resolvePaths "/base" "t1" testFormula testPlat).sourceFile =
      (resolvePaths "/base" "t1" testFormula testPlat).sourceDir ++ "/" ++
        ("mongodb" ++ "-" ++ "4.0.9" ++ "-" ++ "linux" ++ extname testPlat.source) :=
  ⟨by decide,
   (resolvePaths_layout "/base" "t1" testFormula testPlat (by decide) (by decide)
     (by decide) (by decide) (by decide) (by decide)).2.2.2.2.2.1⟩

/-- Claim C8: configuration resolution obeys the precedence explicitly
passed option, then environment variable, then formula default, then
hard-coded fallback (the name default and the temp-directory-based
dir); the port lookup reads MONGO_PORT and falls back to the generic
PORT variable before the formula default port. -/
theorem resolveOpts_precedence (opts : MongoOptions) (env : Env) (host : Host)
    (f : Formula) :
    (∀ v, opts.port = some (some v) → (resolveOpts opts env host f).port = some v) ∧
    (∀ s, opts.port = none → env.MONGO_PORT = some s → s ≠ "" →
      (resolveOpts opts env host f).port = some (.str s)) ∧
    (∀ s, opts.port = none → env.MONGO_PORT = none → env.PORT = some s → s ≠ "" →
      (resolveOpts opts env host f).port = some (.str s)) ∧
    (opts.port = none → env.MONGO_PORT = none → env.PORT = none →
      (resolveOpts opts env host f).port = some (.num f.port)) ∧
    (∀ v, opts.name = some (some v) → (resolveOpts opts env host f).name = some v) ∧
    (∀ s, opts.name = none → env.MONGO_NAME = some s → s ≠ "" →
      (resolveOpts opts env host f).name = some s) ∧
    (opts.name = none → env.MONGO_NAME = none →
      (resolveOpts opts env host f).name = some "default") ∧
    (∀ v, opts.platform = some (some v) →
      (resolveOpts opts env host f).platform = some v) ∧
    (∀ s, opts.platform = none → env.MONGO_PLATFORM = some s → s ≠ "" →
      (resolveOpts opts env host f).platform = some s) ∧
    (opts.platform = none → env.MONGO_PLATFORM = none →
      (resolveOpts opts env host f).platform = some host.platform) ∧
    (∀ v, opts.dir = some (some v) → (resolveOpts opts env host f).dir = some v) ∧
    (∀ s, opts.dir = none → env.MONGO_DIR = some s → s ≠ "" →
      (resolveOpts opts env host f).dir = some s) ∧
    (opts.dir = none → env.MONGO_DIR = none →
      (resolveOpts opts env host f).dir = some (host.tmpdir ++ "/" ++ "mongo")) := by
  have l1 : startsWithSlash "mongo" = false := by decide
  refine ⟨?_, ?_, ?_, ?_, ?_, ?_, ?_, ?_, ?_, ?_, ?_, ?_, ?_⟩ <;>
    intros <;> simp_all [resolveOpts, spreadKey, envOr, envOrPort, pathResolve, resolve1]

/-- Claim C8 witness: with no options and no environment the port is
the formula default and the name is the hard-coded default; a set
MONGO_PORT wins over the formula default. -/
theorem resolveOpts_precedence_witness :
    (resolveOpts {} emptyEnv testHost testFormula).port = some (.num 27017) ∧
    (resolveOpts {} emptyEnv testHost testFormula).name = some "default" ∧
    (resolveOpts {} { MONGO_PORT := some "4321" } testHost testFormula).port =
      some (.str "4321") :=
  ⟨(resolveOpts_precedence {} emptyEnv testHost testFormula).2.2.2.1 rfl rfl rfl,
   (resolveOpts_precedence {} emptyEnv testHost testFormula).2.2.2.2.2.2.1 rfl rfl,
   (resolveOpts_precedence {} { MONGO_PORT := some "4321" } testHost testFormula).2.1
     "4321" rfl rfl (by decide)⟩

/-- Claim C9: an option key present with value undefined is copied by
the object spread over the defaults, so the merged configuration
carries undefined for that key instead of falling back to the
environment, the formula or the hard-coded default. -/
theorem resolveOpts_explicit_undefined (opts : MongoOptions) (env : Env)
    (host : Host) (f : Formula) :
    (opts.port = some none → (resolveOpts opts env host f).port = none) ∧
    (opts.name = some none → (resolveOpts opts env host f).name = none) ∧
    (opts.platform = some none → (resolveOpts opts env host f).platform = none) ∧
    (opts.dir = some none → (resolveOpts opts env host f).dir = none) := by
  refine ⟨?_, ?_, ?_, ?_⟩ <;> intro h <;> simp [resolveOpts, spreadKey, h]

/-- Claim C9 witness: an options object with port explicitly undefined
resolves to an undefined port even though environment and formula
defaults exist. -/
theorem resolveOpts_explicit_undefined_witness :
    (resolveOpts { port := some none } emptyEnv testHost testFormula).port = none :=
  (resolveOpts_explicit_undefined { port := some none } emptyEnv testHost testFormula).1 rfl

/-- Claim C10: close only requests cancellation of the child process:
its effect trace is exactly the cancel effect, which touches neither
the filesystem nor any file handle, the filesystem is unchanged, and
the log file handle stays open. -/
theorem close_frame (st : HandleState) :
    (close st).1.fs = st.fs ∧ (close st).1.logOpen = st.logOpen ∧
    (close st).2.1 = [Effect.cancelProcess] ∧
    ((close st).2.1.all (fun e => !e.touchesFs)) = true := by
  rcases st with ⟨fs, lo, p⟩
  simp [close, execaCancel, jsKill, Effect.touchesFs]

end Mongoz
